import Mathlib

/-!
# Verification of the affordable-housing exploration tool (`web.py`)

A shallow embedding of the data model and the filter/sort/regression
logic of `web.py`.  The dataset is a list of `Row`s (one per (Town, Year)
observation); the pandas expressions of the script become list filters,
a stable sort, and closed-form degree-1 least squares over `ℚ`.

Modelling conventions:
* a pandas `DataFrame` view is a `List Row` in row order;
* numeric columns that may hold missing values (`Total Assisted Units`,
  `Percent Affordable`, which the script passes through `dropna`) are
  `Option ℚ`; `none` plays the role of NaN;
* `df.sort_values(col)` is modelled as a deterministic comparison sort
  (`sortOrd`, an insertion sort).  pandas' default `kind='quicksort'`
  guarantees only the key ordering, not the relative order of rows with
  equal keys, so only ordering and permutation properties of `sortOrd`
  are treated as guarantees of the program; tie-order properties of the
  model (stability, re-sorting a sorted list being the identity) are
  model artifacts and no theorem below relies on them;
* `np.polyfit(x, y, 1)` is the unique degree-1 least-squares solution,
  written in closed form from the normal equations over `ℚ`;
* the floating `np.nan` sentinel for an undefined R² is modelled as
  `none : Option ℚ`.
-/

namespace Housing

/-- One dataset row: an observation of a town in a year (web.py loads the
CSV with columns Town, Year, 2010 Census Units, Total Assisted Units,
Percent Affordable; further pass-through columns are irrelevant to the
verified logic). -/
structure Row where
  town : String
  year : ℤ
  censusUnits : ℚ
  totalAssisted : Option ℚ
  percentAffordable : Option ℚ
deriving DecidableEq, Repr

/-- `df[df["Year"] == year_selected]` (web.py:32) and
`df[df["Year"] == reg_year]` (web.py:152). -/
def filterByYear (table : List Row) (y : ℤ) : List Row :=
  table.filter (fun r => r.year == y)

/-- Ordered insertion: place `x` before the first element `y` with
`r x y`. -/
def insertOrd (r : α → α → Bool) (x : α) : List α → List α
  | [] => [x]
  | y :: ys => if r x y then x :: y :: ys else y :: insertOrd r x ys

/-- Insertion sort by the comparison `r`: the model of
`DataFrame.sort_values`.  The program's sort (pandas default
`kind='quicksort'`) fixes only the key ordering and leaves the relative
order of equal-key rows unspecified, so only the ordering and
permutation properties of this model are read as program guarantees. -/
def sortOrd (r : α → α → Bool) (l : List α) : List α :=
  l.foldr (insertOrd r) []

/-- Descending comparison on a numeric column `key`: `a` may precede `b`
iff `key b ≤ key a`. -/
def descBy (key : α → ℚ) (a b : α) : Bool :=
  decide (key b ≤ key a)

/-- `df_year.sort_values(col, ascending=False).head(top_n)` (web.py:37):
sort descending by the numeric column `key`, keep the first `n` rows. -/
def topNByColumn (view : List Row) (key : Row → ℚ) (n : ℕ) : List Row :=
  (sortOrd (descBy key) view).take n

/-- `df[(df["Year"] >= lo) & (df["Year"] <= hi)]` (web.py:71). -/
def filterByYearRange (table : List Row) (lo hi : ℤ) : List Row :=
  table.filter (fun r => decide (lo ≤ r.year) && decide (r.year ≤ hi))

/-- `df_range[(df_range[col] >= low) & (df_range[col] <= high)]`
(web.py:84–87). -/
def filterByNumericRange (view : List Row) (key : Row → ℚ) (low high : ℚ) :
    List Row :=
  view.filter (fun r => decide (low ≤ key r) && decide (key r ≤ high))

/-- `df_range[col].min()` (web.py:74): the minimum of a numeric column
over a view (0 on an empty view; the script only takes it on the
current nonempty view). -/
def colMin (key : Row → ℚ) : List Row → ℚ
  | [] => 0
  | [r] => key r
  | r :: s :: rs => min (key r) (colMin key (s :: rs))

/-- `df_range[col].max()` (web.py:75). -/
def colMax (key : Row → ℚ) : List Row → ℚ
  | [] => 0
  | [r] => key r
  | r :: s :: rs => max (key r) (colMax key (s :: rs))

/-- Ascending comparison by `Year`. -/
def ascYear (a b : Row) : Bool :=
  decide (a.year ≤ b.year)

/-- `df[df["Town"] == town_selected]` then `.sort_values("Year")`
(web.py:118–119). -/
def filterByTown (table : List Row) (t : String) : List Row :=
  sortOrd ascYear (table.filter (fun r => r.town == t))

/-- `df_reg.dropna(subset=["Total Assisted Units", "Percent Affordable"])`
(web.py:155). -/
def dropNA (view : List Row) : List Row :=
  view.filter (fun r => r.totalAssisted.isSome && r.percentAffordable.isSome)

/-- The (x, y) pairs the regression runs on:
`x = df_reg["Total Assisted Units"].values`,
`y = df_reg["Percent Affordable"].values` after `dropna` (web.py:160–161). -/
def xyPoints (view : List Row) : List (ℚ × ℚ) :=
  (dropNA view).filterMap (fun r =>
    match r.totalAssisted, r.percentAffordable with
    | some x, some y => some (x, y)
    | _, _ => none)

/-- `b, a = np.polyfit(x, y, 1)` (web.py:165): the degree-1 least-squares
coefficients (slope, intercept) in closed form from the normal
equations, over exact rationals. -/
def polyfit1 (pts : List (ℚ × ℚ)) : ℚ × ℚ :=
  let n : ℚ := pts.length
  let sx := (pts.map Prod.fst).sum
  let sy := (pts.map Prod.snd).sum
  let sxx := (pts.map (fun p => p.1 * p.1)).sum
  let sxy := (pts.map (fun p => p.1 * p.2)).sum
  let b := (n * sxy - sx * sy) / (n * sxx - sx * sx)
  let a := (sy - b * sx) / n
  (b, a)

/-- `ss_res = np.sum((y - y_pred) ** 2)` with `y_pred = a + b * x`
(web.py:200–201). -/
def ssRes (pts : List (ℚ × ℚ)) (a b : ℚ) : ℚ :=
  (pts.map (fun p => (p.2 - (a + b * p.1)) ^ 2)).sum

/-- `ss_tot = np.sum((y - np.mean(y)) ** 2)` (web.py:202). -/
def ssTot (pts : List (ℚ × ℚ)) : ℚ :=
  let ybar := (pts.map Prod.snd).sum / pts.length
  (pts.map (fun p => (p.2 - ybar) ^ 2)).sum

/-- `r2 = 1 - ss_res / ss_tot if ss_tot != 0 else np.nan` (web.py:203);
`none` models the `np.nan` sentinel. -/
def rSquared (pts : List (ℚ × ℚ)) (a b : ℚ) : Option ℚ :=
  if ssTot pts ≠ 0 then some (1 - ssRes pts a b / ssTot pts) else none

/-- The regression section's output for one year. -/
structure FitResult where
  slope : ℚ
  intercept : ℚ
  rSquared : Option ℚ
deriving DecidableEq, Repr

/-- The failure mode of the regression section. -/
inductive RegError where
  | insufficientData
deriving DecidableEq, Repr

/-- The regression section (web.py:152–203) as one function on the
year's view: drop rows with a missing x or y, report
`insufficientData` when fewer than 2 usable rows remain
(`if len(df_reg) < 2`, web.py:157), otherwise fit and compute R². -/
def fitLine (view : List Row) : Except RegError FitResult :=
  let pts := xyPoints view
  if pts.length < 2 then
    Except.error RegError.insufficientData
  else
    let ba := polyfit1 pts
    Except.ok ⟨ba.1, ba.2, rSquared pts ba.2 ba.1⟩

/-! ## Helper lemmas about the stable sort -/

theorem insertOrd_perm (r : α → α → Bool) (x : α) (l : List α) :
    (insertOrd r x l).Perm (x :: l) := by
  induction l with
  | nil => exact List.Perm.refl _
  | cons y ys ih =>
    unfold insertOrd
    by_cases h : r x y
    · simp [h]
    · simp only [h, if_false]
      exact (List.Perm.cons y ih).trans (List.Perm.swap x y ys)

theorem sortOrd_perm (r : α → α → Bool) (l : List α) :
    (sortOrd r l).Perm l := by
  induction l with
  | nil => exact List.Perm.refl _
  | cons x xs ih =>
    exact (insertOrd_perm r x (sortOrd r xs)).trans (List.Perm.cons x ih)

theorem mem_insertOrd {r : α → α → Bool} {x a : α} {l : List α} :
    a ∈ insertOrd r x l ↔ a = x ∨ a ∈ l := by
  rw [(insertOrd_perm r x l).mem_iff, List.mem_cons]

theorem insertOrd_pairwise (r : α → α → Bool)
    (htot : ∀ a b, r a b = true ∨ r b a = true)
    (htrans : ∀ a b c, r a b = true → r b c = true → r a c = true)
    (x : α) (l : List α) (hl : l.Pairwise (fun a b => r a b = true)) :
    (insertOrd r x l).Pairwise (fun a b => r a b = true) := by
  induction l with
  | nil => simp [insertOrd]
  | cons y ys ih =>
    rcases List.pairwise_cons.mp hl with ⟨hy, hys⟩
    unfold insertOrd
    by_cases h : r x y
    · simp only [h, if_true]
      refine List.pairwise_cons.mpr ⟨?_, hl⟩
      intro z hz
      rcases List.mem_cons.mp hz with hz | hz
      · exact hz ▸ h
      · exact htrans x y z h (hy z hz)
    · simp only [h, if_false]
      refine List.pairwise_cons.mpr ⟨?_, ih hys⟩
      intro z hz
      rcases mem_insertOrd.mp hz with hz | hz
      · rw [hz]
        rcases htot x y with hxy | hyx
        · exact absurd hxy h
        · exact hyx
      · exact hy z hz

theorem sortOrd_pairwise (r : α → α → Bool)
    (htot : ∀ a b, r a b = true ∨ r b a = true)
    (htrans : ∀ a b c, r a b = true → r b c = true → r a c = true)
    (l : List α) :
    (sortOrd r l).Pairwise (fun a b => r a b = true) := by
  induction l with
  | nil => simp [sortOrd]
  | cons x xs ih => exact insertOrd_pairwise r htot htrans x (sortOrd r xs) ih

theorem ascYear_total (a b : Row) : ascYear a b = true ∨ ascYear b a = true := by
  unfold ascYear
  rcases le_total a.year b.year with h | h <;> simp [h]

theorem ascYear_trans (a b c : Row) (hab : ascYear a b = true)
    (hbc : ascYear b c = true) : ascYear a c = true := by
  unfold ascYear at *
  exact decide_eq_true (le_trans (of_decide_eq_true hab) (of_decide_eq_true hbc))

/-! ## Helper lemmas about column extremes and the regression pipeline -/

theorem colMin_le (key : Row → ℚ) (l : List Row) :
    ∀ r ∈ l, colMin key l ≤ key r := by
  induction l with
  | nil => intro r hr; cases hr
  | cons x xs ih =>
    intro r hr
    cases xs with
    | nil =>
      rcases List.mem_cons.mp hr with hr | hr
      · rw [hr]; exact le_refl _
      · cases hr
    | cons y ys =>
      rcases List.mem_cons.mp hr with hr | hr
      · rw [hr]
        exact min_le_left _ _
      · exact le_trans (min_le_right _ _) (ih r hr)

theorem le_colMax (key : Row → ℚ) (l : List Row) :
    ∀ r ∈ l, key r ≤ colMax key l := by
  induction l with
  | nil => intro r hr; cases hr
  | cons x xs ih =>
    intro r hr
    cases xs with
    | nil =>
      rcases List.mem_cons.mp hr with hr | hr
      · rw [hr]; exact le_refl _
      · cases hr
    | cons y ys =>
      rcases List.mem_cons.mp hr with hr | hr
      · rw [hr]
        exact le_max_left _ _
      · exact le_trans (ih r hr) (le_max_right _ _)

theorem length_filterMap_of_isSome {f : α → Option β} (l : List α)
    (h : ∀ a ∈ l, (f a).isSome = true) :
    (l.filterMap f).length = l.length := by
  induction l with
  | nil => rfl
  | cons x xs ih =>
    rcases Option.isSome_iff_exists.mp (h x (List.mem_cons_self x xs)) with ⟨b, hb⟩
    rw [List.filterMap_cons, hb, List.length_cons,
      ih (fun a ha => h a (List.mem_cons_of_mem x ha)), List.length_cons]

/-- Each row surviving `dropna` contributes exactly one (x, y) point, so
"fewer than 2 usable points" and "fewer than 2 usable rows" agree. -/
theorem xyPoints_length (view : List Row) :
    (xyPoints view).length = (dropNA view).length := by
  unfold xyPoints
  apply length_filterMap_of_isSome
  intro r hr
  have hmem := List.mem_filter.mp hr
  rcases Bool.and_eq_true_iff.mp hmem.2 with ⟨hx, hy⟩
  rcases Option.isSome_iff_exists.mp hx with ⟨x, hx⟩
  rcases Option.isSome_iff_exists.mp hy with ⟨y, hy⟩
  simp [hx, hy]

theorem ssRes_nonneg (pts : List (ℚ × ℚ)) (a b : ℚ) : 0 ≤ ssRes pts a b := by
  unfold ssRes
  apply List.sum_nonneg
  intro q hq
  rcases List.mem_map.mp hq with ⟨p, _, hp⟩
  rw [← hp]
  exact sq_nonneg _

theorem ssTot_nonneg (pts : List (ℚ × ℚ)) : 0 ≤ ssTot pts := by
  unfold ssTot
  apply List.sum_nonneg
  intro q hq
  rcases List.mem_map.mp hq with ⟨p, _, hp⟩
  rw [← hp]
  exact sq_nonneg _

/-! ## Concrete sample data -/

/-- Perfectly linear synthetic input: (x, y) = (1,2), (2,4), (3,6) with
x = Total Assisted Units and y = Percent Affordable. -/
def linearRows : List Row :=
  [⟨"Andover", 2011, 100, some 1, some 2⟩,
   ⟨"Ansonia", 2011, 200, some 2, some 4⟩,
   ⟨"Ashford", 2011, 300, some 3, some 6⟩]

/-- Constant-y synthetic input: (x, y) = (1,5), (2,5), (3,5). -/
def constYRows : List Row :=
  [⟨"Bethany", 2012, 10, some 1, some 5⟩,
   ⟨"Bethel", 2012, 20, some 2, some 5⟩,
   ⟨"Bethlehem", 2012, 30, some 3, some 5⟩]

/-- A small table: one 2011 row, and two 2012 rows of which only one is
usable for regression (the other has a missing Percent Affordable). -/
def smallTable : List Row :=
  [⟨"Andover", 2011, 100, some 1, some 2⟩,
   ⟨"Avon", 2012, 400, some 7, some 9⟩,
   ⟨"Barkhamsted", 2012, 500, some 8, none⟩]

/-! ## Claim theorems -/

/-- C1: on the input set {(1,2),(2,4),(3,6)} with x = Total Assisted
Units and y = Percent Affordable, the regression section returns
slope = 2 and intercept = 0, and the coefficient of determination
computed from the fit equals 1 — exactly, over ℚ, hence in particular
within tolerance 1e-9. -/
theorem fitLine_linear_example :
    fitLine linearRows = Except.ok ⟨2, 0, some 1⟩ := by
  norm_num [fitLine, xyPoints, dropNA, polyfit1, rSquared, ssRes, ssTot,
    linearRows, List.filter, List.filterMap]

/-- C2: for every table and selected regression year, the regression
section reports `insufficientData` (warning, no fit) exactly when fewer
than 2 usable rows remain after dropping rows with a missing
Total Assisted Units or Percent Affordable; in particular one usable
row yields `insufficientData`. -/
theorem fitLine_insufficient_iff (t : List Row) (y : ℤ) :
    (fitLine (filterByYear t y) = Except.error RegError.insufficientData
      ↔ (dropNA (filterByYear t y)).length < 2)
    ∧ ((dropNA (filterByYear t y)).length = 1 →
        fitLine (filterByYear t y) = Except.error RegError.insufficientData) := by
  have hlen := xyPoints_length (filterByYear t y)
  have hiff : fitLine (filterByYear t y) = Except.error RegError.insufficientData
      ↔ (dropNA (filterByYear t y)).length < 2 := by
    by_cases h : (xyPoints (filterByYear t y)).length < 2
    · constructor
      · intro _; omega
      · intro _; simp [fitLine, h]
    · constructor
      · intro hc
        simp [fitLine, h] at hc
      · intro hc; omega
  exact ⟨hiff, fun h1 => hiff.mpr (by omega)⟩

/-- Witness for C2: on `smallTable` in year 2012 exactly one usable row
remains and the outcome is `insufficientData`. -/
theorem fitLine_insufficient_iff_witness :
    (dropNA (filterByYear smallTable 2012)).length = 1
    ∧ fitLine (filterByYear smallTable 2012)
        = Except.error RegError.insufficientData :=
  ⟨by norm_num [dropNA, filterByYear, smallTable, List.filter],
   (fitLine_insufficient_iff smallTable 2012).2
     (by norm_num [dropNA, filterByYear, smallTable, List.filter])⟩

/-- C3: whenever all y values are identical (`ssTot = 0`) the guarded
branch avoids the division and R² is the not-a-number sentinel
(`none`); on {(1,5),(2,5),(3,5)} the fit is slope 0, intercept 5. -/
theorem rSquared_nan_of_constant :
    (∀ pts a b, ssTot pts = 0 → rSquared pts a b = none)
    ∧ fitLine constYRows = Except.ok ⟨0, 5, none⟩ := by
  constructor
  · intro pts a b h
    simp [rSquared, h]
  · norm_num [fitLine, xyPoints, dropNA, polyfit1, rSquared, ssRes, ssTot,
      constYRows, List.filter, List.filterMap]

/-- Witness for C3: a concrete constant-y point list has `ssTot = 0` and
R² reported as the sentinel. -/
theorem rSquared_nan_of_constant_witness :
    ssTot [((1 : ℚ), (5 : ℚ)), (2, 5)] = 0
    ∧ rSquared [((1 : ℚ), (5 : ℚ)), (2, 5)] 3 7 = none :=
  ⟨by norm_num [ssTot],
   rSquared_nan_of_constant.1 [(1, 5), (2, 5)] 3 7 (by norm_num [ssTot])⟩

/-- C10: for every usable regression input with at least 2 points and
non-constant y (`ssTot ≠ 0`), the computed R² = 1 − ssRes/ssTot is at
most 1, because ssRes is a sum of squares and hence non-negative. -/
theorem rSquared_le_one (pts : List (ℚ × ℚ)) (a b : ℚ)
    (h2 : 2 ≤ pts.length) (ht : ssTot pts ≠ 0) :
    ∀ v, rSquared pts a b = some v → v ≤ 1 := by
  intro v hv
  unfold rSquared at hv
  rw [if_pos ht] at hv
  have hv' := Option.some.inj hv
  have h0 : 0 < ssTot pts := lt_of_le_of_ne (ssTot_nonneg pts) (Ne.symm ht)
  have hq : 0 ≤ ssRes pts a b / ssTot pts :=
    div_nonneg (ssRes_nonneg pts a b) (le_of_lt h0)
  rw [← hv']
  linarith

/-- Witness for C10: the fit (a, b) = (0, 0) on {(1,2),(2,3)} has
R² = −25 ≤ 1, with both hypotheses checked concretely. -/
theorem rSquared_le_one_witness :
    2 ≤ ([((1 : ℚ), (2 : ℚ)), (2, 3)] : List (ℚ × ℚ)).length
    ∧ ssTot [((1 : ℚ), (2 : ℚ)), (2, 3)] ≠ 0
    ∧ rSquared [((1 : ℚ), (2 : ℚ)), (2, 3)] 0 0 = some (-25)
    ∧ (-25 : ℚ) ≤ 1 :=
  ⟨by norm_num, by norm_num [ssTot],
   by norm_num [rSquared, ssRes, ssTot],
   rSquared_le_one [(1, 2), (2, 3)] 0 0 (by norm_num) (by norm_num [ssTot])
     (-25) (by norm_num [rSquared, ssRes, ssTot])⟩

/-- C5: filtering by a year returns only rows of that year, keeps every
such row, has length equal to the table's per-year row count, and is
empty (not an error) when no row matches. -/
theorem filterByYear_spec (t : List Row) (y : ℤ) :
    (∀ r ∈ filterByYear t y, r.year = y)
    ∧ (∀ r ∈ t, r.year = y → r ∈ filterByYear t y)
    ∧ (filterByYear t y).length = t.countP (fun r => r.year == y)
    ∧ ((∀ r ∈ t, r.year ≠ y) → filterByYear t y = []) := by
  refine ⟨?_, ?_, ?_, ?_⟩
  · intro r hr
    exact beq_iff_eq.mp (List.mem_filter.mp hr).2
  · intro r hr hy
    exact List.mem_filter.mpr ⟨hr, beq_iff_eq.mpr hy⟩
  · rw [List.countP_eq_length_filter]
    rfl
  · intro h
    apply List.filter_eq_nil_iff.mpr
    intro r hr
    simp only [beq_iff_eq]
    exact h r hr

/-- Witness for C5: the 2012 Avon row of the sample table is kept by
`filterByYear _ 2012`. -/
theorem filterByYear_spec_witness :
    (⟨"Avon", 2012, 400, some 7, some 9⟩ : Row) ∈ filterByYear smallTable 2012 :=
  (filterByYear_spec smallTable 2012).2.1 _ (by simp [smallTable]) rfl

/-- C6: filtering by exact town match then sorting yields exactly the
rows of that town (a permutation of the exact-match filter, membership
in both directions) with Year non-decreasing from first row to last,
for every source row order. -/
theorem filterByTown_spec (t : List Row) (name : String) :
    (filterByTown t name).Perm (t.filter (fun r => r.town == name))
    ∧ (filterByTown t name).Pairwise (fun a b => a.year ≤ b.year)
    ∧ (∀ r ∈ filterByTown t name, r.town = name)
    ∧ (∀ r ∈ t, r.town = name → r ∈ filterByTown t name) := by
  have hperm : (filterByTown t name).Perm (t.filter (fun r => r.town == name)) :=
    sortOrd_perm _ _
  refine ⟨hperm, ?_, ?_, ?_⟩
  · have h := sortOrd_pairwise ascYear ascYear_total ascYear_trans
      (t.filter (fun r => r.town == name))
    exact h.imp (fun hab => of_decide_eq_true hab)
  · intro r hr
    exact beq_iff_eq.mp (List.mem_filter.mp (hperm.subset hr)).2
  · intro r hr htown
    exact hperm.mem_iff.mpr (List.mem_filter.mpr ⟨hr, beq_iff_eq.mpr htown⟩)

/-- Witness for C6: the Avon row of the sample table appears in the
Avon time series. -/
theorem filterByTown_spec_witness :
    (⟨"Avon", 2012, 400, some 7, some 9⟩ : Row) ∈ filterByTown smallTable "Avon" :=
  (filterByTown_spec smallTable "Avon").2.2.2 _ (by simp [smallTable]) rfl

/-- C7: for every year present in the table, the inclusive range filter
[Y, Y] equals the single-year filter row-for-row. -/
theorem filterByYearRange_singleton (t : List Row) (y : ℤ)
    (hy : ∃ r ∈ t, r.year = y) :
    filterByYearRange t y y = filterByYear t y := by
  unfold filterByYearRange filterByYear
  apply List.filter_congr
  intro r _
  rw [Bool.eq_iff_iff]
  simp only [Bool.and_eq_true, decide_eq_true_eq, beq_iff_eq]
  omega

/-- Witness for C7: year 2012 occurs in the sample table and the [2012,
2012] range filter equals the year-2012 filter there. -/
theorem filterByYearRange_singleton_witness :
    (∃ r ∈ smallTable, r.year = 2012)
    ∧ filterByYearRange smallTable 2012 2012 = filterByYear smallTable 2012 :=
  ⟨⟨⟨"Avon", 2012, 400, some 7, some 9⟩, by simp [smallTable], rfl⟩,
   filterByYearRange_singleton smallTable 2012
     ⟨⟨"Avon", 2012, 400, some 7, some 9⟩, by simp [smallTable], rfl⟩⟩

/-- C8: on a non-empty view, the inclusive numeric-range filter with
bounds equal to the view's own column minimum and maximum keeps every
row (so it is the full view and in particular non-empty), and for any
bounds every row whose value lies within them is retained. -/
theorem filterByNumericRange_minmax (v : List Row) (key : Row → ℚ)
    (hv : v ≠ []) :
    filterByNumericRange v key (colMin key v) (colMax key v) = v
    ∧ filterByNumericRange v key (colMin key v) (colMax key v) ≠ []
    ∧ (∀ low high r, r ∈ v → low ≤ key r → key r ≤ high →
        r ∈ filterByNumericRange v key low high) := by
  have heq : filterByNumericRange v key (colMin key v) (colMax key v) = v := by
    unfold filterByNumericRange
    apply List.filter_eq_self.mpr
    intro r hr
    simp only [Bool.and_eq_true, decide_eq_true_eq]
    exact ⟨colMin_le key v r hr, le_colMax key v r hr⟩
  refine ⟨heq, by rw [heq]; exact hv, ?_⟩
  intro low high r hr h1 h2
  refine List.mem_filter.mpr ⟨hr, ?_⟩
  simp only [Bool.and_eq_true, decide_eq_true_eq]
  exact ⟨h1, h2⟩

/-- Witness for C8: on the (non-empty) sample table, the census-units
filter at the observed min/max keeps the whole view. -/
theorem filterByNumericRange_minmax_witness :
    smallTable ≠ []
    ∧ filterByNumericRange smallTable Row.censusUnits
        (colMin Row.censusUnits smallTable) (colMax Row.censusUnits smallTable)
        = smallTable :=
  ⟨by simp [smallTable],
   (filterByNumericRange_minmax smallTable Row.censusUnits
     (by simp [smallTable])).1⟩

end Housing
